import Mathlib

/-!
Shallow embedding of the authorization / payment-state-machine core of the
elevate-grow training-enrollment backend (Express + Prisma, JavaScript).

Each definition is translated from a named function of the source tree:
  * `src/services/admin.service.js`  — updateEnrollmentStatus, updatePaymentStatus
  * `src/services/auth.service.js`   — userSignup
  * `src/controllers/user.controller.js` — updateProfile (field whitelist)
  * `src/routes/admin.routes.js`     — updateUserProfile, createEnrollment,
    createEnrollmentWithDetails, initiatePaymentForEnrollment, confirmPayment,
    getPaymentStatus

JavaScript values are rendered as follows: record rows become structures,
status strings stay `String` (the code compares raw strings), `undefined`
optional fields become `Option`, millisecond timestamps become `Int`
(`Date.now()` is passed in explicitly as `now`), and every stateful service
returns `Except String α × DB`: the `Except` is the JS return/throw and the
`DB` is the database state after the call (Prisma writes that happen before a
throw are visible in that state, exactly as in the code).  A Prisma
`$transaction` body is a single Lean state transition, which renders its
atomicity: no intermediate state exists in the model.
-/

namespace ElevateGrow

/-- A row of the `users` table (fields touched by the modelled code). -/
structure User where
  id : Nat
  full_name : String
  email : String
  phone : Option String
  profession : Option String
  college : Option String
  company : Option String
  role : String
  is_admin : Bool
  password : String
deriving Repr, DecidableEq

/-- A row of the `training_programs` table. -/
structure TrainingProgram where
  id : Nat
  title : String
  description : Option String
  duration : Option String
  price : Option Int
  is_active : Bool
deriving Repr, DecidableEq

/-- A row of the `enrollments` table. -/
structure Enrollment where
  id : Nat
  user_id : Nat
  training_id : Nat
  status : String
deriving Repr, DecidableEq

/-- A row of the `payments` table.  `created_at` is the JS millisecond epoch
timestamp that anchors the verification window. -/
structure Payment where
  id : Nat
  user_id : Nat
  training_id : Nat
  amount : Int
  payment_method : String
  transaction_reference : Option String
  status : String
  created_at : Int
deriving Repr, DecidableEq

/-- The database state seen by the modelled services.  `nextId` supplies the
fresh ids that Prisma generates on `create`. -/
structure DB where
  users : List User
  trainingPrograms : List TrainingProgram
  enrollments : List Enrollment
  payments : List Payment
  nextId : Nat
deriving Repr, DecidableEq

/-- `prisma.payment.findFirst({where: {id}})`. -/
def findPayment (db : DB) (paymentId : Nat) : Option Payment :=
  db.payments.find? (fun p => p.id == paymentId)

/-- `prisma.enrollment.findFirst({where: {id}})` / `update({where: {id}})` lookup. -/
def findEnrollment (db : DB) (enrollmentId : Nat) : Option Enrollment :=
  db.enrollments.find? (fun e => e.id == enrollmentId)

/-- `src/services/admin.service.js` line 435: the status values accepted by
`updatePaymentStatus`.  (Spec vocabulary: `pending_verification` =
awaiting_verification, `verified` = confirmed, `failed` = rejected.) -/
def validPaymentStatuses : List String :=
  ["pending_verification", "verified", "failed", "refunded"]

/-- `updatePaymentStatus(adminId, adminRole, paymentId, status)` from
`src/services/admin.service.js` lines 433–499.  The `prisma.$transaction`
body (payment update + conditional `enrollment.updateMany`) is one state
transition.  `adminId`/`adminRole` are only logged by the code and do not
influence the result. -/
def updatePaymentStatus (adminId : Nat) (adminRole : String) (paymentId : Nat)
    (status : String) (db : DB) : Except String Payment × DB :=
  if ¬ validPaymentStatuses.contains status then
    (.error "Invalid payment status", db)
  else
    match findPayment db paymentId with
    | none => (.error "Payment not found", db)
    | some payment =>
      let payments' := db.payments.map (fun q =>
        if q.id == paymentId then { q with status := status } else q)
      let enrollments' :=
        if status == "verified" then
          db.enrollments.map (fun e =>
            if e.user_id == payment.user_id && e.training_id == payment.training_id
                && e.status == "pending_payment"
            then { e with status := "enrolled" } else e)
        else if status == "failed" then
          db.enrollments.map (fun e =>
            if e.user_id == payment.user_id && e.training_id == payment.training_id
                && e.status == "enrolled"
            then { e with status := "pending_payment" } else e)
        else
          db.enrollments
      (.ok { payment with status := status },
       { db with payments := payments', enrollments := enrollments' })

/-- `updateEnrollmentStatus(adminId, adminRole, enrollmentId, status)` from
`src/services/admin.service.js` lines 352–383: validates the status string
against the fixed list, then writes it unconditionally (no check of the
current status). -/
def updateEnrollmentStatus (adminId : Nat) (adminRole : String) (enrollmentId : Nat)
    (status : String) (db : DB) : Except String Enrollment × DB :=
  if ¬ (["pending_payment", "enrolled", "completed"] : List String).contains status then
    (.error "Invalid status", db)
  else
    match findEnrollment db enrollmentId with
    | none => (.error "Enrollment not found", db)
    | some enrollment =>
      (.ok { enrollment with status := status },
        { db with enrollments :=
            db.enrollments.map (fun e =>
              if e.id == enrollmentId then { e with status := status } else e) })

/-! ### Signup (`src/services/auth.service.js` lines 10–106) -/

/-- The JSON body of a public signup request.  String fields are `""` when
absent (JS falsy); `role` and `is_admin` may be present in the body but the
service never destructures them. -/
structure SignupBody where
  full_name : String
  email : String
  phone : Option String
  profession : Option String
  college : Option String
  company : Option String
  password : String
  role : Option String
  is_admin : Option Bool
deriving Repr, DecidableEq

/-- The email test `/^[^\s@]+@[^\s@]+\.[^\s@]+$/` of auth.service.js line 20:
no whitespace anywhere, exactly one `@` not at the start, and after the `@` a
dot that is neither directly after the `@` nor the final character. -/
def emailRegexTest (s : String) : Bool :=
  let cs := s.data
  let pre := cs.takeWhile (fun c => c != '@')
  let post := (cs.dropWhile (fun c => c != '@')).tail
  cs.all (fun c => ¬ c.isWhitespace) && cs.count '@' == 1 &&
    ¬ pre.isEmpty && post.tail.dropLast.contains '.'

/-- Stand-in for the external `bcrypt.hash(password, 12)` call (library code,
outside the repository); only its output being stored matters here. -/
def bcryptHash (password : String) : String :=
  "bcrypt$12$" ++ password

/-- `userSignup(userData)` from `src/services/auth.service.js` lines 10–106:
validates, rejects duplicate emails, and creates the user with `role: 'user'`
and `is_admin: false` hardcoded (the body's own role fields are never read). -/
def userSignup (body : SignupBody) (db : DB) : Except String User × DB :=
  if body.full_name == "" || body.email == "" || body.password == "" then
    (.error "Full name, email, and password are required", db)
  else if ¬ emailRegexTest body.email then
    (.error "Invalid email format", db)
  else if (match body.profession with
           | some p => p != "" && ¬ (["student", "professional"] : List String).contains p
           | none => false) then
    (.error "Profession must be either \"student\" or \"professional\"", db)
  else
    match db.users.find? (fun u => u.email == body.email) with
    | some _ => (.error "Email already exists", db)
    | none =>
      let user : User :=
        { id := db.nextId
          full_name := body.full_name
          email := body.email
          phone := match body.phone with
                   | some p => if p == "" then none else some p
                   | none => none
          profession := match body.profession with
                        | some p => if p == "" then none else some p
                        | none => none
          college := body.college
          company := body.company
          role := "user"
          is_admin := false
          password := bcryptHash body.password }
      (.ok user, { db with users := db.users ++ [user], nextId := db.nextId + 1 })

/-! ### Self-service profile update
(`src/controllers/user.controller.js` lines 164–187 and the
`updateUserProfile` service, `src/routes/admin.routes.js` lines 703–748) -/

/-- The JSON body of a self-service profile-update request: whatever fields
the client sends.  `none` is an absent (`undefined`) field. -/
structure ProfileUpdateBody where
  full_name : Option String
  phone : Option String
  profession : Option String
  college : Option String
  company : Option String
  role : Option String
  is_admin : Option Bool
deriving Repr, DecidableEq

/-- The `updateData` object the controller builds from the whitelist
`['full_name', 'phone', 'profession', 'college', 'company']`. -/
structure ProfileUpdateData where
  full_name : Option String
  phone : Option String
  profession : Option String
  college : Option String
  company : Option String
deriving Repr, DecidableEq

/-- The `updateFields` write of `updateUserProfile` applied to the matched
row: only the five profile columns change
(`phone ? phone.toString() : null` renders `""` to `null`). -/
def applyProfileUpdate (d : ProfileUpdateData) (u : User) : User :=
  { u with
      full_name := d.full_name.getD u.full_name
      phone := match d.phone with
               | some p => if p == "" then none else some p
               | none => u.phone
      profession := match d.profession with
                    | some p => some p
                    | none => u.profession
      college := match d.college with
                 | some c => some c
                 | none => u.college
      company := match d.company with
                 | some c => some c
                 | none => u.company }

/-- `updateUserProfile(userId, userRole, updateData)` from
`src/routes/admin.routes.js` lines 703–748: validates `profession` when
truthy, then updates only the five profile columns of the caller's own row. -/
def updateUserProfile (userId : Nat) (userRole : String) (d : ProfileUpdateData)
    (db : DB) : Except String User × DB :=
  if (match d.profession with
      | some p => p != "" && ¬ (["student", "professional"] : List String).contains p
      | none => false) then
    (.error "Profession must be either \"student\" or \"professional\"", db)
  else
    match db.users.find? (fun u => u.id == userId) with
    | none => (.error "Profile not found or access denied", db)
    | some user =>
      (.ok (applyProfileUpdate d user),
        { db with users := db.users.map (fun u =>
            if u.id == userId then applyProfileUpdate d u else u) })

/-- `updateProfile` from `src/controllers/user.controller.js` lines 164–187:
copies only the whitelisted fields of the request body into `updateData`
(role / is_admin never pass the filter) and calls the service. -/
def updateProfile (userId : Nat) (userRole : String) (body : ProfileUpdateBody)
    (db : DB) : Except String User × DB :=
  updateUserProfile userId userRole
    { full_name := body.full_name
      phone := body.phone
      profession := body.profession
      college := body.college
      company := body.company } db

/-! ### Enrollment creation
(`src/routes/admin.routes.js` lines 816–886 and 891–1008) -/

/-- The portion of the enrollment response built from the created/returned
row (the `training` summary sub-object is elided: no claim concerns it). -/
structure EnrollmentResult where
  id : Nat
  user_id : Nat
  training_id : Nat
  status : String
deriving Repr, DecidableEq

/-- `prisma.trainingProgram.findFirst({where: {id, is_active: true}})`. -/
def findActiveTraining (db : DB) (trainingId : Nat) : Option TrainingProgram :=
  db.trainingPrograms.find? (fun t => t.id == trainingId && t.is_active)

/-- `prisma.enrollment.findUnique({where: {user_id_training_id}})`. -/
def findEnrollmentByPair (db : DB) (userId trainingId : Nat) : Option Enrollment :=
  db.enrollments.find? (fun e => e.user_id == userId && e.training_id == trainingId)

/-- `createEnrollment(userId, userRole, trainingId)` from
`src/routes/admin.routes.js` lines 816–886: any existing enrollment for the
(user, training) pair makes the call fail; otherwise one row is created with
status `pending_payment`.  `trainingId = none` is the JS falsy/absent id. -/
def createEnrollment (userId : Nat) (userRole : String) (trainingId : Option Nat)
    (db : DB) : Except String EnrollmentResult × DB :=
  match trainingId with
  | none => (.error "Training ID is required", db)
  | some tid =>
    match findActiveTraining db tid with
    | none => (.error "Training program not found or not active", db)
    | some _training =>
      match findEnrollmentByPair db userId tid with
      | some _ => (.error "Already enrolled in this training program", db)
      | none =>
        let enrollment : Enrollment :=
          { id := db.nextId, user_id := userId, training_id := tid
            status := "pending_payment" }
        (.ok { id := enrollment.id, user_id := userId, training_id := tid
               status := enrollment.status },
         { db with enrollments := db.enrollments ++ [enrollment], nextId := db.nextId + 1 })

/-- The `{ full_name, phone }` detail object passed to
`createEnrollmentWithDetails`; `none` is `undefined`, which Prisma skips. -/
structure ProfileData where
  full_name : Option String
  phone : Option String
deriving Repr, DecidableEq

/-- The `prisma.user.update` writing `profileData` inside
`createEnrollmentWithDetails`. -/
def applyProfileData (pd : ProfileData) (u : User) : User :=
  { u with
      full_name := pd.full_name.getD u.full_name
      phone := match pd.phone with
               | some p => some p
               | none => u.phone }

/-- `createEnrollmentWithDetails(userId, userRole, trainingId, profileData)`
from `src/routes/admin.routes.js` lines 891–1008: when an enrollment for the
pair already exists and is still `pending_payment`, the call SUCCEEDS — it
refreshes the profile and returns the existing row (retry path); only a
non-`pending_payment` existing enrollment fails.  Otherwise profile update +
enrollment creation run in one `$transaction` (one state transition). -/
def createEnrollmentWithDetails (userId : Nat) (userRole : String)
    (trainingId : Option Nat) (profileData : ProfileData) (db : DB) :
    Except String EnrollmentResult × DB :=
  match trainingId with
  | none => (.error "Training ID is required", db)
  | some tid =>
    match findActiveTraining db tid with
    | none => (.error "Training program not found or not active", db)
    | some _training =>
      match findEnrollmentByPair db userId tid with
      | some existing =>
        if existing.status == "pending_payment" then
          (.ok { id := existing.id, user_id := userId, training_id := tid
                 status := existing.status },
           { db with users := db.users.map (fun u =>
               if u.id == userId then applyProfileData profileData u else u) })
        else
          (.error "Already enrolled in this training program", db)
      | none =>
        let enrollment : Enrollment :=
          { id := db.nextId, user_id := userId, training_id := tid
            status := "pending_payment" }
        (.ok { id := enrollment.id, user_id := userId, training_id := tid
               status := enrollment.status },
         { db with
             users := db.users.map (fun u =>
               if u.id == userId then applyProfileData profileData u else u)
             enrollments := db.enrollments ++ [enrollment]
             nextId := db.nextId + 1 })

/-! ### Payment session flow
(`src/routes/admin.routes.js` lines 1013–1282) -/

/-- The fixed verification window: `const FIVE_MINUTES = 5 * 60 * 1000`. -/
def FIVE_MINUTES : Int := 5 * 60 * 1000

/-- Default of `process.env.COMPANY_UPI_ID || 'qthink@paytm'`. -/
def companyUpiId : String := "qthink@paytm"

/-- Default of `process.env.COMPANY_NAME || 'QThink Solutions'`. -/
def companyName : String := "QThink Solutions"

/-- `generateUpiLink` from `src/routes/admin.routes.js` lines 1013–1023
(URLSearchParams percent-encoding elided; the parameter order pa,pn,am,tn,tr
is the source's). -/
def generateUpiLink (upiId merchantName : String) (amount : Int)
    (transactionNote transactionRef : String) : String :=
  "upi://pay?pa=" ++ upiId ++ "&pn=" ++ merchantName ++ "&am=" ++ toString amount
    ++ "&tn=" ++ transactionNote ++ "&tr=" ++ transactionRef

/-- Stand-in for the external `QRCode.toDataURL` library call on the link. -/
def qrCodeDataUrl (text : String) : String :=
  "data:image/png;qr(" ++ text ++ ")"

/-- `enrollmentId.slice(-6)`: the last six characters of the id rendered as a
string. -/
def sliceLast6 (s : String) : String :=
  String.mk (s.data.reverse.take 6).reverse

/-- The freshly generated reference `` `TXN-${Date.now()}-${enrollmentId.slice(-6)}` ``
(admin.routes.js lines 1098, 1111 and 1119): it depends on the CURRENT time
of the call, not on the Payment row. -/
def txnReference (now : Int) (enrollmentId : Nat) : String :=
  "TXN-" ++ toString now ++ "-" ++ sliceLast6 (toString enrollmentId)

/-- Response of `initiatePaymentForEnrollment`. -/
structure InitiatePaymentResult where
  payment_id : Nat
  enrollment_id : Nat
  training_title : String
  amount : Int
  upi_link : String
  qr_code : String
  payment_reference : String
  expires_at : Int
  timer_duration : Int
deriving Repr, DecidableEq

/-- `prisma.enrollment.findFirst({where: {id, user_id}})`. -/
def findOwnEnrollment (db : DB) (userId enrollmentId : Nat) : Option Enrollment :=
  db.enrollments.find? (fun e => e.id == enrollmentId && e.user_id == userId)

/-- `prisma.payment.findFirst({where: {user_id, training_id, status:
'pending_verification'}})`. -/
def findPendingPayment (db : DB) (userId trainingId : Nat) : Option Payment :=
  db.payments.find? (fun p =>
    p.user_id == userId && p.training_id == trainingId && p.status == "pending_verification")

/-- `prisma.trainingProgram` row reached through a Prisma `include` (a
foreign key in the schema; the error branch models the only behaviour a
missing relation could produce). -/
def findTraining (db : DB) (trainingId : Nat) : Option TrainingProgram :=
  db.trainingPrograms.find? (fun t => t.id == trainingId)

/-- Shared tail of `initiatePaymentForEnrollment`: create the new
`pending_verification` Payment and build the response (lines 1118–1167). -/
def createNewPaymentSession (userId enrollmentId : Nat) (enrollment : Enrollment)
    (training : TrainingProgram) (now : Int) (db : DB) :
    Except String InitiatePaymentResult × DB :=
  let paymentReference := txnReference now enrollmentId
  let amount := training.price.getD 0
  let payment : Payment :=
    { id := db.nextId
      user_id := userId
      training_id := enrollment.training_id
      amount := amount
      payment_method := "UPI"
      transaction_reference := none
      status := "pending_verification"
      created_at := now }
  let upiLink := generateUpiLink companyUpiId companyName amount
    ("Payment for " ++ training.title) paymentReference
  (.ok { payment_id := payment.id
         enrollment_id := enrollmentId
         training_title := training.title
         amount := amount
         upi_link := upiLink
         qr_code := qrCodeDataUrl upiLink
         payment_reference := paymentReference
         expires_at := now + FIVE_MINUTES
         timer_duration := 300 },
   { db with payments := db.payments ++ [payment], nextId := db.nextId + 1 })

/-- `initiatePaymentForEnrollment(userId, userRole, enrollmentId)` from
`src/routes/admin.routes.js` lines 1049–1172, with `Date.now()` passed as
`now`.  A still-valid pending session is returned as-is (same `payment_id`,
no new row) but with a FRESH `TXN-` reference; an expired one is first
marked `failed` and a new Payment is created. -/
def initiatePaymentForEnrollment (userId : Nat) (userRole : String)
    (enrollmentId : Nat) (now : Int) (db : DB) :
    Except String InitiatePaymentResult × DB :=
  match findOwnEnrollment db userId enrollmentId with
  | none => (.error "Enrollment not found or access denied", db)
  | some enrollment =>
    if enrollment.status != "pending_payment" then
      (.error "Enrollment is not in pending payment status", db)
    else
      match findTraining db enrollment.training_id with
      | none => (.error "TypeError: included training_program is null", db)
      | some training =>
        match findPendingPayment db userId enrollment.training_id with
        | some existingPayment =>
          let sessionAge := now - existingPayment.created_at
          if sessionAge ≥ FIVE_MINUTES then
            let db1 := { db with payments := db.payments.map (fun p =>
              if p.id == existingPayment.id then { p with status := "failed" } else p) }
            createNewPaymentSession userId enrollmentId enrollment training now db1
          else
            let upiLink := generateUpiLink companyUpiId companyName
              (training.price.getD 0) ("Payment for " ++ training.title)
              (txnReference now enrollmentId)
            (.ok { payment_id := existingPayment.id
                   enrollment_id := enrollmentId
                   training_title := training.title
                   amount := training.price.getD 0
                   upi_link := upiLink
                   qr_code := qrCodeDataUrl upiLink
                   payment_reference := txnReference now enrollmentId
                   expires_at := existingPayment.created_at + FIVE_MINUTES
                   timer_duration := max 0 ((FIVE_MINUTES - sessionAge) / 1000) },
             db)
        | none => createNewPaymentSession userId enrollmentId enrollment training now db

/-- Response of `confirmPayment`. -/
structure ConfirmPaymentResult where
  id : Nat
  status : String
  transaction_reference : Option String
  message : String
deriving Repr, DecidableEq

/-- `prisma.payment.findFirst({where: {id, user_id}})`. -/
def findOwnPayment (db : DB) (userId paymentId : Nat) : Option Payment :=
  db.payments.find? (fun p => p.id == paymentId && p.user_id == userId)

/-- The stored value of `transactionReference || null` (admin.routes.js line
1212): `null` for an omitted or empty reference, the reference otherwise. -/
def normalizedReference (transactionReference : Option String) : Option String :=
  match transactionReference with
  | some r => if r == "" then none else some r
  | none => none

/-- `confirmPayment(userId, userRole, paymentId, transactionReference)` from
`src/routes/admin.routes.js` lines 1177–1232.  `transactionReference = none`
is an omitted body field; `transactionReference || null` stores `null` for an
omitted or empty reference.  On an elapsed window the Payment is written to
`failed` BEFORE the throw, so that write is visible in the returned state. -/
def confirmPayment (userId : Nat) (userRole : String) (paymentId : Nat)
    (transactionReference : Option String) (now : Int) (db : DB) :
    Except String ConfirmPaymentResult × DB :=
  match findOwnPayment db userId paymentId with
  | none => (.error "Payment not found or access denied", db)
  | some payment =>
    if payment.status != "pending_verification" then
      (.error "Payment is not in pending verification status", db)
    else
      let sessionAge := now - payment.created_at
      if sessionAge ≥ FIVE_MINUTES then
        (.error "Payment session expired. Please retry payment.",
         { db with payments := db.payments.map (fun p =>
             if p.id == paymentId then { p with status := "failed" } else p) })
      else
        let payment' :=
          { payment with transaction_reference := normalizedReference transactionReference }
        (.ok { id := payment'.id
               status := payment'.status
               transaction_reference := payment'.transaction_reference
               message := "Your payment is under verification. You will be notified once confirmed." },
         { db with payments := db.payments.map (fun p =>
             if p.id == paymentId then
               { p with transaction_reference := normalizedReference transactionReference }
             else p) })

/-- Response of `getPaymentStatus`. -/
structure PaymentStatusResult where
  id : Nat
  status : String
  amount : Int
  training_title : String
  transaction_reference : Option String
  created_at : Int
  is_expired : Bool
deriving Repr, DecidableEq

/-- `getPaymentStatus(userId, userRole, paymentId)` from
`src/routes/admin.routes.js` lines 1237–1282: a read that lazily expires a
`pending_verification` Payment whose window has elapsed (write-before-return)
and reports `is_expired` from the pre-read status. -/
def getPaymentStatus (userId : Nat) (userRole : String) (paymentId : Nat)
    (now : Int) (db : DB) : Except String PaymentStatusResult × DB :=
  match findOwnPayment db userId paymentId with
  | none => (.error "Payment not found or access denied", db)
  | some payment =>
    match findTraining db payment.training_id with
    | none => (.error "TypeError: included training_program is null", db)
    | some training =>
      let sessionAge := now - payment.created_at
      let expiresNow := payment.status == "pending_verification" && sessionAge ≥ FIVE_MINUTES
      let status := if expiresNow then "failed" else payment.status
      let db' :=
        if expiresNow then
          { db with payments := db.payments.map (fun p =>
              if p.id == paymentId then { p with status := "failed" } else p) }
        else db
      (.ok { id := payment.id
             status := status
             amount := payment.amount
             training_title := training.title
             transaction_reference := payment.transaction_reference
             created_at := payment.created_at
             is_expired := sessionAge ≥ FIVE_MINUTES && payment.status == "pending_verification" },
       db')

/-! ## Concrete states used by witnesses and counterexamples -/

/-- An empty database. -/
def dbEmpty : DB :=
  { users := [], trainingPrograms := [], enrollments := [], payments := [], nextId := 1 }

/-- A signup body that tries to smuggle in an administrator role. -/
def signupBodyX : SignupBody :=
  { full_name := "Ada", email := "ada@example.com", phone := none, profession := none
    college := none, company := none, password := "pw"
    role := some "administrator", is_admin := some true }

/-- The account `userSignup signupBodyX dbEmpty` creates. -/
def signupUserX : User :=
  { id := 1, full_name := "Ada", email := "ada@example.com", phone := none
    profession := none, college := none, company := none
    role := "user", is_admin := false, password := bcryptHash "pw" }

/-- A database holding one already-`verified` payment (id 7). -/
def dbPayVerified : DB :=
  { users := [], trainingPrograms := [], enrollments := []
    payments := [ { id := 7, user_id := 1, training_id := 2, amount := 100
                    payment_method := "UPI", transaction_reference := none
                    status := "verified", created_at := 0 } ]
    nextId := 8 }

/-- A database with one member (id 1), one active offering (id 2), one
`pending_payment` enrollment (id 3) for that pair, and one
`pending_verification` payment (id 4) created at time 0. -/
def dbPending : DB :=
  { users := [ { id := 1, full_name := "Ada", email := "ada@example.com", phone := none
                 profession := none, college := none, company := none
                 role := "user", is_admin := false, password := "h" } ]
    trainingPrograms := [ { id := 2, title := "Lean", description := none
                            duration := none, price := some 100, is_active := true } ]
    enrollments := [ { id := 3, user_id := 1, training_id := 2, status := "pending_payment" } ]
    payments := [ { id := 4, user_id := 1, training_id := 2, amount := 100
                    payment_method := "UPI", transaction_reference := some "OLD-REF"
                    status := "pending_verification", created_at := 0 } ]
    nextId := 5 }

/-! ## Claim theorems -/

/-- C3: for every public signup request, whatever role or elevated-flag value
the body carries, the created account has role `user` (the code's name for
`member`) and `is_admin = false`, and it is simply appended to the accounts. -/
theorem userSignup_forces_member_role (body : SignupBody) (db : DB) (u : User)
    (h : (userSignup body db).1 = .ok u) :
    u.role = "user" ∧ u.is_admin = false ∧
      (userSignup body db).2.users = db.users ++ [u] := by
  revert h
  unfold userSignup
  repeat' split
  all_goals intro h
  all_goals simp at h
  all_goals (subst h; simp)

/-- Witness for `userSignup_forces_member_role`: a signup whose body claims
`role: "administrator"` and `is_admin: true` still yields a `user` account. -/
theorem userSignup_forces_member_role_witness :
    signupUserX.role = "user" ∧ signupUserX.is_admin = false ∧
      (userSignup signupBodyX dbEmpty).2.users = dbEmpty.users ++ [signupUserX] :=
  userSignup_forces_member_role signupBodyX dbEmpty signupUserX rfl

/-- C9 (amended) : a target status outside the code's accepted list
`{pending_verification, verified, failed, refunded}` makes
`updatePaymentStatus` fail with the invalid-status error and leaves the whole
database — payments and enrollments included — unchanged. -/
theorem updatePaymentStatus_invalid_target (adminId : Nat) (adminRole : String)
    (paymentId : Nat) (status : String) (db : DB)
    (h : ¬ validPaymentStatuses.contains status) :
    updatePaymentStatus adminId adminRole paymentId status db
      = (.error "Invalid payment status", db) := by
  unfold updatePaymentStatus
  rw [if_pos h]

/-- Witness for `updatePaymentStatus_invalid_target`: the spec's own word
`confirmed` is not an accepted code-level status. -/
theorem updatePaymentStatus_invalid_target_witness :
    updatePaymentStatus 1 "admin" 7 "confirmed" dbPayVerified
      = (.error "Invalid payment status", dbPayVerified) :=
  updatePaymentStatus_invalid_target 1 "admin" 7 "confirmed" dbPayVerified (by decide)

/-- C9 counterexample: `pending_verification` (spec name:
`awaiting_verification`) is NOT one of confirmed/rejected/refunded, yet the
admin status update accepts it and rewrites the Payment instead of failing
with `InvalidStatus`. -/
theorem updatePaymentStatus_accepts_pending_verification :
    (updatePaymentStatus 1 "admin" 7 "pending_verification" dbPayVerified).1
      = .ok { id := 7, user_id := 1, training_id := 2, amount := 100
              payment_method := "UPI", transaction_reference := none
              status := "pending_verification", created_at := 0 } ∧
    ((updatePaymentStatus 1 "admin" 7 "pending_verification" dbPayVerified).2).payments.map
        Payment.status = ["pending_verification"] := by
  constructor
  · rfl
  · rfl

/-- C1: setting a Payment to `verified` (the code's name for `confirmed`) is
one state transition that simultaneously rewrites the Payment's status and
flips every Enrollment of the same (account, offering) pair still in
`pending_payment` to `enrolled`; everything else is untouched.  The
`$transaction` body is a single transition of the model, so no state with
only one of the two writes exists. -/
theorem updatePaymentStatus_verified_atomic (adminId : Nat) (adminRole : String)
    (paymentId : Nat) (db : DB) (p : Payment)
    (hp : findPayment db paymentId = some p) :
    updatePaymentStatus adminId adminRole paymentId "verified" db
      = (.ok { p with status := "verified" },
         { db with
             payments := db.payments.map (fun q =>
               if q.id == paymentId then { q with status := "verified" } else q)
             enrollments := db.enrollments.map (fun e =>
               if e.user_id == p.user_id && e.training_id == p.training_id
                   && e.status == "pending_payment"
               then { e with status := "enrolled" } else e) }) := by
  unfold updatePaymentStatus
  rw [if_neg (by decide), hp]
  rfl

/-- Witness for `updatePaymentStatus_verified_atomic` on `dbPending`: the
payment becomes `verified` and the matching `pending_payment` enrollment
becomes `enrolled` in the same resulting state. -/
theorem updatePaymentStatus_verified_atomic_witness :
    updatePaymentStatus 1 "admin" 4 "verified" dbPending
      = (.ok { id := 4, user_id := 1, training_id := 2, amount := 100
               payment_method := "UPI", transaction_reference := some "OLD-REF"
               status := "verified", created_at := 0 },
         { dbPending with
             payments := dbPending.payments.map (fun q =>
               if q.id == 4 then { q with status := "verified" } else q)
             enrollments := dbPending.enrollments.map (fun e =>
               if e.user_id == 1 && e.training_id == 2 && e.status == "pending_payment"
               then { e with status := "enrolled" } else e) }) :=
  updatePaymentStatus_verified_atomic 1 "admin" 4 dbPending
    { id := 4, user_id := 1, training_id := 2, amount := 100
      payment_method := "UPI", transaction_reference := some "OLD-REF"
      status := "pending_verification", created_at := 0 } (by decide)

/-- C2: a self-service profile update, whatever the request body contains,
changes nothing but the five whitelisted profile fields of the caller's own
row: the other tables and the id supply are untouched, the account list
keeps its length, every row keeps its `id`, `email`, `role`, `is_admin` and
`password`, and every row other than the caller's is wholly unchanged —
so in particular `role` and the elevated flag are preserved. -/
theorem updateProfile_frame_effect (userId : Nat) (userRole : String)
    (body : ProfileUpdateBody) (db : DB) :
    ((updateProfile userId userRole body db).2).trainingPrograms = db.trainingPrograms ∧
    ((updateProfile userId userRole body db).2).enrollments = db.enrollments ∧
    ((updateProfile userId userRole body db).2).payments = db.payments ∧
    ((updateProfile userId userRole body db).2).nextId = db.nextId ∧
    ((updateProfile userId userRole body db).2).users.length = db.users.length ∧
    (∀ i : Nat, ∀ u u' : User, db.users[i]? = some u →
      ((updateProfile userId userRole body db).2).users[i]? = some u' →
      (u'.id = u.id ∧ u'.email = u.email ∧ u'.role = u.role ∧
        u'.is_admin = u.is_admin ∧ u'.password = u.password) ∧
      (u.id ≠ userId → u' = u)) := by
  unfold updateProfile updateUserProfile
  split
  · refine ⟨rfl, rfl, rfl, rfl, rfl, ?_⟩
    intro i u u' h1 h2
    rw [h1] at h2
    injection h2 with h
    subst h
    exact ⟨⟨rfl, rfl, rfl, rfl, rfl⟩, fun _ => rfl⟩
  · split
    · refine ⟨rfl, rfl, rfl, rfl, rfl, ?_⟩
      intro i u u' h1 h2
      rw [h1] at h2
      injection h2 with h
      subst h
      exact ⟨⟨rfl, rfl, rfl, rfl, rfl⟩, fun _ => rfl⟩
    · refine ⟨rfl, rfl, rfl, rfl, List.length_map .., ?_⟩
      intro i u u' h1 h2
      rw [List.getElem?_map, h1] at h2
      injection h2 with h
      subst h
      by_cases hid : u.id = userId
      · exact ⟨by simp [hid, applyProfileUpdate], fun hne => absurd hid hne⟩
      · constructor <;> simp [hid]

/-- The row of `dbPending`'s single account before any update. -/
def userAda : User :=
  { id := 1, full_name := "Ada", email := "ada@example.com", phone := none
    profession := none, college := none, company := none
    role := "user", is_admin := false, password := "h" }

/-- `userAda` after the whitelisted part of `profileBodyX` is applied: only
`full_name` changed. -/
def userEve : User :=
  { id := 1, full_name := "Eve", email := "ada@example.com", phone := none
    profession := none, college := none, company := none
    role := "user", is_admin := false, password := "h" }

/-- A profile-update body that renames the account and tries to smuggle in
`role: "administrator"` and `is_admin: true`. -/
def profileBodyX : ProfileUpdateBody :=
  { full_name := some "Eve", phone := none, profession := none
    college := none, company := none
    role := some "administrator", is_admin := some true }

/-- Witness for `updateProfile_frame_effect`: updating `dbPending`'s account
with `profileBodyX` yields `userEve` — same id, email, role, flag and
password as `userAda`, only the whitelisted name changed. -/
theorem updateProfile_frame_effect_witness :
    (userEve.id = userAda.id ∧ userEve.email = userAda.email ∧
      userEve.role = userAda.role ∧ userEve.is_admin = userAda.is_admin ∧
      userEve.password = userAda.password) ∧
    (userAda.id ≠ 1 → userEve = userAda) :=
  (updateProfile_frame_effect 1 "user" profileBodyX dbPending).2.2.2.2.2
    0 userAda userEve rfl rfl

/-- A database holding one `completed` enrollment (id 1) and one
`pending_verification` payment (id 4) for the same (account 1, offering 2). -/
def dbCompleted : DB :=
  { users := [], trainingPrograms := []
    enrollments := [ { id := 1, user_id := 1, training_id := 2, status := "completed" } ]
    payments := [ { id := 4, user_id := 1, training_id := 2, amount := 100
                    payment_method := "UPI", transaction_reference := none
                    status := "pending_verification", created_at := 0 } ]
    nextId := 9 }

/-- C8 counterexample: the administrator enrollment-status update happily
moves a `completed` Enrollment back to `enrolled` — nothing guards the
current status. -/
theorem updateEnrollmentStatus_regresses_completed :
    updateEnrollmentStatus 1 "admin" 1 "enrolled" dbCompleted
      = (.ok { id := 1, user_id := 1, training_id := 2, status := "enrolled" },
         { dbCompleted with
             enrollments := [ { id := 1, user_id := 1, training_id := 2, status := "enrolled" } ] }) :=
  rfl

/-- C8 (amended): the administrator payment-status update indeed never
touches a `completed` Enrollment (its cascades only rewrite `pending_payment`
or `enrolled` rows), but the administrator enrollment-status update writes
any requested valid status unconditionally, so it can regress a `completed`
Enrollment to `enrolled` or `pending_payment`. -/
theorem completed_enrollment_transitions (adminId : Nat) (adminRole : String)
    (paymentId : Nat) (ps es : String) (db : DB) (i : Nat) (e : Enrollment)
    (he : db.enrollments[i]? = some e) (hc : e.status = "completed")
    (hf : findEnrollment db e.id = some e)
    (hs : (["pending_payment", "enrolled", "completed"] : List String).contains es) :
    ((updatePaymentStatus adminId adminRole paymentId ps db).2).enrollments[i]? = some e ∧
    (updateEnrollmentStatus adminId adminRole e.id es db).1 = .ok { e with status := es } := by
  constructor
  · unfold updatePaymentStatus
    split
    · exact he
    · split
      · exact he
      · split
        · simp [List.getElem?_map, he, hc]
        · split
          · simp [List.getElem?_map, he, hc]
          · exact he
  · unfold updateEnrollmentStatus
    rw [if_neg (not_not_intro hs), hf]

/-- Witness for `completed_enrollment_transitions` on `dbCompleted`: the
payment-status update leaves the completed enrollment at index 0 intact,
while the enrollment-status update rewrites it to `pending_payment`. -/
theorem completed_enrollment_transitions_witness :
    ((updatePaymentStatus 1 "admin" 4 "verified" dbCompleted).2).enrollments[0]?
        = some { id := 1, user_id := 1, training_id := 2, status := "completed" } ∧
    (updateEnrollmentStatus 1 "admin" 1 "pending_payment" dbCompleted).1
        = .ok { id := 1, user_id := 1, training_id := 2, status := "pending_payment" } :=
  completed_enrollment_transitions 1 "admin" 4 "verified" "pending_payment" dbCompleted 0
    { id := 1, user_id := 1, training_id := 2, status := "completed" }
    rfl rfl rfl (by decide)

/-- The uniqueness invariant of the `enrollments` table: no two rows share
the same (account, offering) pair — the schema's compound unique constraint
`user_id_training_id`. -/
def UniquePairs (es : List Enrollment) : Prop :=
  es.Pairwise (fun a b => ¬ (a.user_id = b.user_id ∧ a.training_id = b.training_id))

/-- Appending a row whose pair is absent (the `findUnique` miss) preserves
the uniqueness invariant. -/
theorem uniquePairs_append (es : List Enrollment) (a : Enrollment)
    (hu : UniquePairs es)
    (hnone : es.find? (fun e => e.user_id == a.user_id && e.training_id == a.training_id)
        = none) :
    UniquePairs (es ++ [a]) := by
  rw [UniquePairs, List.pairwise_append]
  refine ⟨hu, List.pairwise_singleton .., ?_⟩
  intro x hx b hb
  have hb' : b = a := by simpa using hb
  subst hb'
  have := List.find?_eq_none.mp hnone x hx
  simpa using this

/-- C4 counterexample: with an `awaiting_payment` enrollment already present
for (account 1, offering 2), the enrollment-creation-with-details call does
NOT fail with a conflict — it succeeds and returns the existing row
(`dbPending.enrollments` is unchanged, so no second row either). -/
theorem createEnrollmentWithDetails_duplicate_succeeds :
    (createEnrollmentWithDetails 1 "user" (some 2) { full_name := none, phone := none }
        dbPending).1
      = .ok { id := 3, user_id := 1, training_id := 2, status := "pending_payment" } ∧
    ((createEnrollmentWithDetails 1 "user" (some 2) { full_name := none, phone := none }
        dbPending).2).enrollments = dbPending.enrollments :=
  ⟨rfl, rfl⟩

/-- C4 (amended): at most one Enrollment per (account, offering) pair ever
exists — both creation paths preserve the uniqueness invariant and add no row
when the pair already has one.  On an existing pair, `createEnrollment`
always fails with the conflict error; `createEnrollmentWithDetails` fails
with the conflict error only when the existing row has left
`pending_payment`, and otherwise succeeds by returning the existing row. -/
theorem enrollment_pair_unique (userId : Nat) (userRole : String) (tid : Nat)
    (pd : ProfileData) (db : DB) (t : TrainingProgram) (ex : Enrollment)
    (hu : UniquePairs db.enrollments)
    (ht : findActiveTraining db tid = some t)
    (hex : findEnrollmentByPair db userId tid = some ex) :
    createEnrollment userId userRole (some tid) db
        = (.error "Already enrolled in this training program", db) ∧
    ((createEnrollmentWithDetails userId userRole (some tid) pd db).2).enrollments
        = db.enrollments ∧
    (ex.status = "pending_payment" →
      (createEnrollmentWithDetails userId userRole (some tid) pd db).1
        = .ok { id := ex.id, user_id := userId, training_id := tid, status := ex.status }) ∧
    (ex.status ≠ "pending_payment" →
      (createEnrollmentWithDetails userId userRole (some tid) pd db).1
        = .error "Already enrolled in this training program") ∧
    (∀ uid2 role2 tid2 pd2,
      UniquePairs ((createEnrollment uid2 role2 tid2 db).2).enrollments ∧
      UniquePairs ((createEnrollmentWithDetails uid2 role2 tid2 pd2 db).2).enrollments) := by
  refine ⟨?_, ?_, ?_, ?_, ?_⟩
  · unfold createEnrollment
    dsimp only
    rw [ht, hex]
  · unfold createEnrollmentWithDetails
    dsimp only
    rw [ht, hex]
    by_cases h : (ex.status == "pending_payment") = true <;> simp [h]
  · intro hs
    unfold createEnrollmentWithDetails
    simp only [ht, hex]
    rw [if_pos (by simp [hs])]
  · intro hs
    unfold createEnrollmentWithDetails
    simp only [ht, hex]
    rw [if_neg (by simp [hs])]
  · intro uid2 role2 tid2 pd2
    constructor
    · unfold createEnrollment
      repeat' split
      all_goals try exact hu
      exact uniquePairs_append db.enrollments _ hu (by assumption)
    · unfold createEnrollmentWithDetails
      repeat' split
      all_goals try exact hu
      exact uniquePairs_append db.enrollments _ hu (by assumption)

/-- Witness for `enrollment_pair_unique` on `dbPending` (one enrollment,
pair (1,2), status `pending_payment`). -/
theorem enrollment_pair_unique_witness :
    createEnrollment 1 "user" (some 2) dbPending
        = (.error "Already enrolled in this training program", dbPending) ∧
    ((createEnrollmentWithDetails 1 "user" (some 2)
        { full_name := some "Ada L.", phone := none } dbPending).2).enrollments
        = dbPending.enrollments ∧
    ((let ex : Enrollment := { id := 3, user_id := 1, training_id := 2
                               status := "pending_payment" };
      ex.status = "pending_payment") →
      (createEnrollmentWithDetails 1 "user" (some 2)
          { full_name := some "Ada L.", phone := none } dbPending).1
        = .ok { id := 3, user_id := 1, training_id := 2, status := "pending_payment" }) ∧
    (((3 : Nat) = 3 → "pending_payment" ≠ "pending_payment") →
      (createEnrollmentWithDetails 1 "user" (some 2)
          { full_name := some "Ada L.", phone := none } dbPending).1
        = .error "Already enrolled in this training program") ∧
    (∀ uid2 role2 tid2 pd2,
      UniquePairs ((createEnrollment uid2 role2 tid2 dbPending).2).enrollments ∧
      UniquePairs ((createEnrollmentWithDetails uid2 role2 tid2 pd2 dbPending).2).enrollments) := by
  have h := enrollment_pair_unique 1 "user" 2
    { full_name := some "Ada L.", phone := none } dbPending
    { id := 2, title := "Lean", description := none, duration := none
      price := some 100, is_active := true }
    { id := 3, user_id := 1, training_id := 2, status := "pending_payment" }
    (by simp [UniquePairs, dbPending]) rfl rfl
  exact ⟨h.1, h.2.1, fun _ => h.2.2.1 rfl, fun hcon => absurd rfl (hcon rfl), h.2.2.2.2⟩

/-- Like `dbPending` but before any payment exists (`nextId = 4`, so the
first payment created gets id 4). -/
def dbInit : DB :=
  { users := [ { id := 1, full_name := "Ada", email := "ada@example.com", phone := none
                 profession := none, college := none, company := none
                 role := "user", is_admin := false, password := "h" } ]
    trainingPrograms := [ { id := 2, title := "Lean", description := none
                            duration := none, price := some 100, is_active := true } ]
    enrollments := [ { id := 3, user_id := 1, training_id := 2, status := "pending_payment" } ]
    payments := []
    nextId := 4 }

/-- First initiate-payment call on `dbInit`, at time 0. -/
def initLeg1 : Except String InitiatePaymentResult × DB :=
  initiatePaymentForEnrollment 1 "user" 3 0 dbInit

/-- Second initiate-payment call, at time 1000 (well inside the window), on
the state the first call left. -/
def initLeg2 : Except String InitiatePaymentResult × DB :=
  initiatePaymentForEnrollment 1 "user" 3 1000 initLeg1.2

/-- C5 counterexample: two initiate-payment calls within the verification
window return the SAME payment identity (4) and create no second Payment
row, but the returned payment references differ (`TXN-0-3` vs
`TXN-1000-3`): the reference is regenerated from `Date.now()` on each call,
so the "same reference both times" part of the claim is false. -/
theorem initiatePayment_retry_fresh_reference :
    initLeg1.1.toOption.map (fun r => (r.payment_id, r.payment_reference))
        = some (4, "TXN-0-3") ∧
    initLeg2.1.toOption.map (fun r => (r.payment_id, r.payment_reference))
        = some (4, "TXN-1000-3") ∧
    initLeg2.2.payments.map Payment.id = [4] ∧
    ("TXN-0-3" : String) ≠ "TXN-1000-3" :=
  ⟨rfl, rfl, rfl, by decide⟩

/-- C5 (amended): an initiate-payment retry within the verification window
is idempotent on the STORE and on the payment identity — it returns the
existing Payment's id and leaves the database exactly unchanged (no
duplicate row) — but the payment reference it returns is freshly generated
from the current call time (`TXN-<now>-<id suffix>`), so the two calls may
report different references. -/
theorem initiatePayment_retry_same_payment (userId : Nat) (userRole : String)
    (enrollmentId : Nat) (now : Int) (db : DB) (e : Enrollment)
    (t : TrainingProgram) (p : Payment)
    (he : findOwnEnrollment db userId enrollmentId = some e)
    (hst : e.status = "pending_payment")
    (ht : findTraining db e.training_id = some t)
    (hp : findPendingPayment db userId e.training_id = some p)
    (hage : now - p.created_at < FIVE_MINUTES) :
    initiatePaymentForEnrollment userId userRole enrollmentId now db
      = (.ok { payment_id := p.id
               enrollment_id := enrollmentId
               training_title := t.title
               amount := t.price.getD 0
               upi_link := generateUpiLink companyUpiId companyName (t.price.getD 0)
                 ("Payment for " ++ t.title) (txnReference now enrollmentId)
               qr_code := qrCodeDataUrl (generateUpiLink companyUpiId companyName
                 (t.price.getD 0) ("Payment for " ++ t.title)
                 (txnReference now enrollmentId))
               payment_reference := txnReference now enrollmentId
               expires_at := p.created_at + FIVE_MINUTES
               timer_duration := max 0 ((FIVE_MINUTES - (now - p.created_at)) / 1000) },
         db) := by
  unfold initiatePaymentForEnrollment
  simp only [he, ht, hp]
  rw [if_neg (by simp [hst]), if_neg (not_le.mpr hage)]

/-- Witness for `initiatePayment_retry_same_payment`: the second leg of the
concrete two-call scenario. -/
theorem initiatePayment_retry_same_payment_witness :
    initiatePaymentForEnrollment 1 "user" 3 1000 initLeg1.2
      = (.ok { payment_id := 4
               enrollment_id := 3
               training_title := "Lean"
               amount := 100
               upi_link := generateUpiLink companyUpiId companyName 100
                 ("Payment for " ++ "Lean") (txnReference 1000 3)
               qr_code := qrCodeDataUrl (generateUpiLink companyUpiId companyName 100
                 ("Payment for " ++ "Lean") (txnReference 1000 3))
               payment_reference := txnReference 1000 3
               expires_at := 0 + FIVE_MINUTES
               timer_duration := max 0 ((FIVE_MINUTES - (1000 - 0)) / 1000) },
         initLeg1.2) :=
  initiatePayment_retry_same_payment 1 "user" 3 1000 initLeg1.2
    { id := 3, user_id := 1, training_id := 2, status := "pending_payment" }
    { id := 2, title := "Lean", description := none, duration := none
      price := some 100, is_active := true }
    { id := 4, user_id := 1, training_id := 2, amount := 100
      payment_method := "UPI", transaction_reference := none
      status := "pending_verification", created_at := 0 }
    rfl rfl rfl rfl (by decide)

/-- Helper: the in-window success branch of `confirmPayment`. -/
theorem confirmPayment_in_window (userId : Nat) (userRole : String)
    (paymentId : Nat) (tr : Option String) (now : Int) (db : DB) (p : Payment)
    (hp : findOwnPayment db userId paymentId = some p)
    (hs : p.status = "pending_verification")
    (hage : now - p.created_at < FIVE_MINUTES) :
    confirmPayment userId userRole paymentId tr now db
      = (.ok { id := p.id
               status := "pending_verification"
               transaction_reference := normalizedReference tr
               message := "Your payment is under verification. You will be notified once confirmed." },
         { db with payments := db.payments.map (fun q =>
             if q.id == paymentId then
               { q with transaction_reference := normalizedReference tr }
             else q) }) := by
  unfold confirmPayment
  simp only [hp]
  rw [if_neg (by simp [hs]), if_neg (not_le.mpr hage)]
  simp [hs]

/-- C6: member confirmation succeeds only on a `pending_verification`
Payment within its window — it then stores the optional reference
(`transactionReference || null`) and leaves the status untouched; on an
elapsed window it writes `failed` and throws the session-expired error; on
any other status it fails without touching the state. -/
theorem confirmPayment_window_behaviour (userId : Nat) (userRole : String)
    (paymentId : Nat) (tr : Option String) (now : Int) (db : DB) (p : Payment)
    (hp : findOwnPayment db userId paymentId = some p) :
    (p.status ≠ "pending_verification" →
      confirmPayment userId userRole paymentId tr now db
        = (.error "Payment is not in pending verification status", db)) ∧
    (p.status = "pending_verification" → FIVE_MINUTES ≤ now - p.created_at →
      confirmPayment userId userRole paymentId tr now db
        = (.error "Payment session expired. Please retry payment.",
           { db with payments := db.payments.map (fun q =>
               if q.id == paymentId then { q with status := "failed" } else q) })) ∧
    (p.status = "pending_verification" → now - p.created_at < FIVE_MINUTES →
      confirmPayment userId userRole paymentId tr now db
        = (.ok { id := p.id
                 status := "pending_verification"
                 transaction_reference := normalizedReference tr
                 message := "Your payment is under verification. You will be notified once confirmed." },
           { db with payments := db.payments.map (fun q =>
               if q.id == paymentId then
                 { q with transaction_reference := normalizedReference tr }
               else q) })) := by
  refine ⟨?_, ?_, ?_⟩
  · intro hns
    unfold confirmPayment
    simp only [hp]
    rw [if_pos (by simp [hns])]
  · intro hs hage
    unfold confirmPayment
    simp only [hp]
    rw [if_neg (by simp [hs]), if_pos hage]
  · intro hs hage
    exact confirmPayment_in_window userId userRole paymentId tr now db p hp hs hage

/-- Witness for `confirmPayment_window_behaviour`: the in-window confirmation
branch on `dbPending`, recording reference `TX9`. -/
theorem confirmPayment_window_behaviour_witness :
    confirmPayment 1 "user" 4 (some "TX9") 1000 dbPending
      = (.ok { id := 4
               status := "pending_verification"
               transaction_reference := normalizedReference (some "TX9")
               message := "Your payment is under verification. You will be notified once confirmed." },
         { dbPending with payments := dbPending.payments.map (fun q =>
             if q.id == 4 then
               { q with transaction_reference := normalizedReference (some "TX9") }
             else q) }) :=
  (confirmPayment_window_behaviour 1 "user" 4 (some "TX9") 1000 dbPending
    { id := 4, user_id := 1, training_id := 2, amount := 100
      payment_method := "UPI", transaction_reference := some "OLD-REF"
      status := "pending_verification", created_at := 0 }
    rfl).2.2 rfl (by decide)

/-- C7: a status read one millisecond past the window boundary lazily
transitions a `pending_verification` Payment to `failed` before returning
and reports `is_expired := true`; a read one millisecond before the boundary
returns `pending_verification`, flags nothing, and leaves the state
untouched. -/
theorem getPaymentStatus_boundary (userId : Nat) (userRole : String)
    (paymentId : Nat) (db : DB) (p : Payment) (t : TrainingProgram)
    (hp : findOwnPayment db userId paymentId = some p)
    (ht : findTraining db p.training_id = some t)
    (hst : p.status = "pending_verification") :
    getPaymentStatus userId userRole paymentId (p.created_at + FIVE_MINUTES + 1) db
        = (.ok { id := p.id
                 status := "failed"
                 amount := p.amount
                 training_title := t.title
                 transaction_reference := p.transaction_reference
                 created_at := p.created_at
                 is_expired := true },
           { db with payments := db.payments.map (fun q =>
               if q.id == paymentId then { q with status := "failed" } else q) }) ∧
    getPaymentStatus userId userRole paymentId (p.created_at + FIVE_MINUTES - 1) db
        = (.ok { id := p.id
                 status := "pending_verification"
                 amount := p.amount
                 training_title := t.title
                 transaction_reference := p.transaction_reference
                 created_at := p.created_at
                 is_expired := false },
           db) := by
  have hge : FIVE_MINUTES ≤ p.created_at + FIVE_MINUTES + 1 - p.created_at := by omega
  have hlt : ¬ FIVE_MINUTES ≤ p.created_at + FIVE_MINUTES - 1 - p.created_at := by
    unfold FIVE_MINUTES
    omega
  constructor
  · unfold getPaymentStatus
    simp only [hp, ht]
    simp [hst, hge]
  · unfold getPaymentStatus
    simp only [hp, ht]
    simp [hst, hlt]

/-- Witness for `getPaymentStatus_boundary` on `dbPending` (payment created
at 0, window 300000 ms): reads at 300001 and 299999. -/
theorem getPaymentStatus_boundary_witness :
    getPaymentStatus 1 "user" 4 (0 + FIVE_MINUTES + 1) dbPending
        = (.ok { id := 4
                 status := "failed"
                 amount := 100
                 training_title := "Lean"
                 transaction_reference := some "OLD-REF"
                 created_at := 0
                 is_expired := true },
           { dbPending with payments := dbPending.payments.map (fun q =>
               if q.id == 4 then { q with status := "failed" } else q) }) ∧
    getPaymentStatus 1 "user" 4 (0 + FIVE_MINUTES - 1) dbPending
        = (.ok { id := 4
                 status := "pending_verification"
                 amount := 100
                 training_title := "Lean"
                 transaction_reference := some "OLD-REF"
                 created_at := 0
                 is_expired := false },
           dbPending) :=
  getPaymentStatus_boundary 1 "user" 4 dbPending
    { id := 4, user_id := 1, training_id := 2, amount := 100
      payment_method := "UPI", transaction_reference := some "OLD-REF"
      status := "pending_verification", created_at := 0 }
    { id := 2, title := "Lean", description := none, duration := none
      price := some 100, is_active := true }
    rfl rfl rfl

/-- C10: a member confirmation that omits the transaction reference or sends
an empty one stores `null`, erasing whatever reference the Payment already
carried. -/
theorem confirmPayment_blank_reference_erases (userId : Nat) (userRole : String)
    (paymentId : Nat) (tr : Option String) (now : Int) (db : DB) (p : Payment)
    (hp : findOwnPayment db userId paymentId = some p)
    (hst : p.status = "pending_verification")
    (hage : now - p.created_at < FIVE_MINUTES)
    (htr : tr = none ∨ tr = some "") :
    confirmPayment userId userRole paymentId tr now db
      = (.ok { id := p.id
               status := "pending_verification"
               transaction_reference := none
               message := "Your payment is under verification. You will be notified once confirmed." },
         { db with payments := db.payments.map (fun q =>
             if q.id == paymentId then { q with transaction_reference := none } else q) }) := by
  have hnorm : normalizedReference tr = none := by
    rcases htr with h | h <;> subst h <;> rfl
  have h := confirmPayment_in_window userId userRole paymentId tr now db p hp hst hage
  rw [h, hnorm]

/-- Witness for `confirmPayment_blank_reference_erases`: on `dbPending`,
whose payment carries `OLD-REF`, an empty-reference confirmation stores
`null`. -/
theorem confirmPayment_blank_reference_erases_witness :
    confirmPayment 1 "user" 4 (some "") 1000 dbPending
      = (.ok { id := 4
               status := "pending_verification"
               transaction_reference := none
               message := "Your payment is under verification. You will be notified once confirmed." },
         { dbPending with payments := dbPending.payments.map (fun q =>
             if q.id == 4 then { q with transaction_reference := none } else q) }) :=
  confirmPayment_blank_reference_erases 1 "user" 4 (some "") 1000 dbPending
    { id := 4, user_id := 1, training_id := 2, amount := 100
      payment_method := "UPI", transaction_reference := some "OLD-REF"
      status := "pending_verification", created_at := 0 }
    rfl rfl (by decide) (Or.inr rfl)

end ElevateGrow
